import Mathlib

/-!
Shallow embedding of the thread-screen model of the Manyverse client
(`src/frontend/screens/thread/model.ts`): the `State` record, the reducer
functions produced by `model(...)`, and small operational models of the
stream wiring (take-one, per-event sub-thread requests, merged event traces)
needed to state the behavioural properties of the spec.

Conventions of the embedding:
* `FeedId` and `MsgId` are strings; `undefined`/`null` fields are `Option`.
* A JavaScript record spread `{...prev, f: v}` is a Lean structure update.
* `Record<MsgId, ThreadAndExtras>` is an association list; insertion of a
  fresh key appends it (matching JS object key order), and presence of a key
  is `List.lookup`.
* JS truthiness on an optional string (`props.replyToMsgId ? ... : ...`,
  `if (!replyText)`) is false on both `none` and `some ""`.
* The regex tests `/Author Blocked/i` and `/Not Found/i` are case-insensitive
  substring tests, modelled by lowercasing (ASCII) both sides.
* `propsReducer` dereferences `props.rootMsg.key` when `props.rootMsgId` is
  absent; when both are absent the JS code would throw, so the embedded
  reducer returns `Option State` and yields `none` in that case.
-/

namespace ThreadModel

/-- The `errorReason` field of `ThreadAndExtras`: one of `missing`, `blocked`, `unknown`. -/
inductive ErrorReason where
  | missing
  | blocked
  | unknown
  deriving DecidableEq, Repr

/-- A message record (`MsgAndExtras`). The model only ever reads its `key`
(in `props.rootMsg.key`); all other message content is opaque to the reducers,
so it is abstracted away. -/
structure MsgAndExtras where
  key : String
  deriving DecidableEq, Repr

/-- `ThreadAndExtras`: completeness flag, ordered messages, optional error
classification. A JS thread literal without an `errorReason` key is `none`. -/
structure ThreadAndExtras where
  full : Bool
  messages : List MsgAndExtras
  errorReason : Option ErrorReason
  deriving DecidableEq, Repr

/-- `const emptyThread = {full: true, messages: []}`. -/
def emptyThread : ThreadAndExtras :=
  { full := true, messages := [], errorReason := none }

/-- The `missingThread` constant: full, empty, classified as missing. -/
def missingThread : ThreadAndExtras :=
  { full := true, messages := [], errorReason := some ErrorReason.missing }

/-- The `blockedThread` constant: full, empty, classified as blocked. -/
def blockedThread : ThreadAndExtras :=
  { full := true, messages := [], errorReason := some ErrorReason.blocked }

/-- The `unknownErrorThread` constant: full, empty, classified as unknown. -/
def unknownErrorThread : ThreadAndExtras :=
  { full := true, messages := [], errorReason := some ErrorReason.unknown }

/-- The screen `State` record. `getSelfRepliesReadable` is a function handle
(`GetReadable<MsgAndExtras> | null`) whose value is never inspected by any
reducer in this file, so it is abstracted to `Option Unit`. `subthreads` is
`Record<MsgId, ThreadAndExtras>` as an association list. -/
structure State where
  selfFeedId : String
  selfAvatarUrl : Option String
  rootMsgId : String
  higherRootMsgId : Option String
  loading : Bool
  loadingReplies : Bool
  thread : ThreadAndExtras
  subthreads : List (String × ThreadAndExtras)
  expandRootCW : Bool
  replyText : String
  replyEditable : Bool
  getSelfRepliesReadable : Option Unit
  startedAsReply : Bool
  keyboardVisible : Bool
  deriving DecidableEq, Repr

/-- The `Props` record, as used by `model`: `selfFeedId`, optional
`selfAvatarUrl`, optional explicit `rootMsgId`, optional embedded `rootMsg`
object, optional `higherRootMsgId`, optional `expandRootCW`, optional
`replyToMsgId` (the reply target). -/
structure Props where
  selfFeedId : String
  selfAvatarUrl : Option String
  rootMsgId : Option String
  rootMsg : Option MsgAndExtras
  higherRootMsgId : Option String
  expandRootCW : Option Bool
  replyToMsgId : Option String
  deriving DecidableEq, Repr

/-- JS truthiness of an optional string: `undefined`, `null` and `""` are
falsy, every other string is truthy. -/
def truthyStr : Option String → Bool
  | none => false
  | some s => !(s == "")

/-- The body shared by both defined branches of `propsReducer`: the returned
initial `State` once the root message id has been resolved. -/
def mkInitState (props : Props) (rootId : String) : State :=
  { selfFeedId := props.selfFeedId
    selfAvatarUrl := props.selfAvatarUrl
    rootMsgId := rootId
    higherRootMsgId := props.higherRootMsgId
    loading := true
    loadingReplies := props.rootMsg.isSome
    thread := emptyThread
    subthreads := []
    expandRootCW := props.expandRootCW.getD false
    replyText := ""
    replyEditable := true
    getSelfRepliesReadable := none
    startedAsReply := truthyStr props.replyToMsgId
    keyboardVisible := truthyStr props.replyToMsgId }

/-- `propsReducer`: ignores the previous state and builds the initial state
from props. `rootMsgId := props.rootMsgId ?? props.rootMsg.key` (`??` falls
through only on `undefined`/`null`); `loadingReplies := !!props.rootMsg`;
`startedAsReply`/`keyboardVisible` are the truthiness of `props.replyToMsgId`;
`expandRootCW := props.expandRootCW ?? false`. If both `rootMsgId` and
`rootMsg` are absent the JS dereference `props.rootMsg.key` throws: `none`. -/
def propsReducer (props : Props) (_prev : Option State) : Option State :=
  match props.rootMsgId, props.rootMsg with
  | some id, _ => some (mkInitState props id)
  | none, some m => some (mkInitState props m.key)
  | none, none => none

/-- `props$.take(1)`: how many times the props reducer fires, as a function of
the list of emissions of `props$`. -/
def propsFirings (ps : List Props) : Nat :=
  (ps.take 1).length

/-- `setRootMsgReducer`: keep `prev` untouched when the thread is already full
and non-empty, otherwise install the rehydrated root message as a
single-message non-full thread (the JS thread literal has no `errorReason`). -/
def setRootMsgReducer (rootMsg : MsgAndExtras) (prev : State) : State :=
  if prev.thread.full = true ∧ prev.thread.messages.length > 0 then
    prev
  else
    { prev with thread := { full := false, messages := [rootMsg], errorReason := none } }

/-- `setThreadReducer`: install the loaded (or sentinel) thread and clear both
loading flags. -/
def setThreadReducer (thread : ThreadAndExtras) (prev : State) : State :=
  { prev with thread := thread, loading := false, loadingReplies := false }

/-- Whether the pattern (as a lowercased character list) occurs at the head of
the text. -/
def matchAt : List Char → List Char → Bool
  | [], _ => true
  | _ :: _, [] => false
  | p :: ps, c :: cs => p == c && matchAt ps cs

/-- Whether the pattern occurs anywhere in the text. -/
def containsSub (pat : List Char) : List Char → Bool
  | [] => matchAt pat []
  | c :: cs => matchAt pat (c :: cs) || containsSub pat cs

/-- `/pat/i.test(s)`: case-insensitive substring test, via ASCII lowercasing
of both pattern and text. -/
def testCI (pat s : String) : Bool :=
  containsSub (pat.toList.map Char.toLower) (s.toList.map Char.toLower)

/-- The `replaceError` classification of a failed thread load, keyed on the
error message text: `/Author Blocked/i` wins over `/Not Found/i`, anything
else is the unknown-error sentinel. -/
def classifyThreadFailure (errMessage : String) : ThreadAndExtras :=
  if testCI "Author Blocked" errMessage then blockedThread
  else if testCI "Not Found" errMessage then missingThread
  else unknownErrorThread

/-- `setSubthreadReducer`: if `prev.subthreads[msgId]` is already defined
(a stored thread object is always truthy) return `prev`, else insert the
loaded sub-thread under `msgId`. -/
def setSubthreadReducer (msgId : String) (subthread : ThreadAndExtras) (prev : State) : State :=
  match prev.subthreads.lookup msgId with
  | some _ => prev
  | none => { prev with subthreads := prev.subthreads ++ [(msgId, subthread)] }

/-- `keyboardAppearedReducer`. -/
def keyboardAppearedReducer (prev : State) : State :=
  { prev with keyboardVisible := true }

/-- `keyboardDisappearedReducer`. -/
def keyboardDisappearedReducer (prev : State) : State :=
  { prev with keyboardVisible := false }

/-- `updateReplyTextReducer`. -/
def updateReplyTextReducer (text : String) (prev : State) : State :=
  { prev with replyText := text }

/-- `emptyPublishedReducer`: first of the two reducers emitted per publish. -/
def emptyPublishedReducer (prev : State) : State :=
  { prev with replyText := "", replyEditable := false }

/-- `resetEditableReducer`: second of the two reducers emitted per publish. -/
def resetEditableReducer (prev : State) : State :=
  { prev with replyEditable := true }

/-- `publishReplyReducers$` emits, per publish action, exactly this ordered
pair of reducers (`xs.of(emptyPublishedReducer, resetEditableReducer)`). -/
def publishReplyReducers : List (State → State) :=
  [emptyPublishedReducer, resetEditableReducer]

/-- Apply a list of reducers in order, collecting each produced state. -/
def runReducers (prev : State) : List (State → State) → List State
  | [] => []
  | r :: rest =>
    let s := r prev
    s :: runReducers s rest

/-- `emptyReplyTextReducer` (on `willReply$`). -/
def emptyReplyTextReducer (prev : State) : State :=
  { prev with replyText := "" }

/-- `loadReplyDraftReducer`: the fetched draft is `string | null`; re-using JS
truthiness, `if (!replyText)` resets to `""` (so `null`/absent and a stored
`""` coincide), otherwise the stored string is installed verbatim. -/
def loadReplyDraftReducer (replyText : Option String) (prev : State) : State :=
  if truthyStr replyText = false then
    { prev with replyText := "" }
  else
    { prev with replyText := replyText.getD "" }

/-- `addSelfRepliesReducer`: append the newly seen self-reply to the thread
and mark it full; the JS thread literal `{messages: ..., full: true}` carries
no `errorReason` key. -/
def addSelfRepliesReducer (newMsg : MsgAndExtras) (prev : State) : State :=
  { prev with
    thread :=
      { messages := prev.thread.messages ++ [newMsg]
        full := true
        errorReason := none } }

/-- `.take(1)` on the live self-replies pull stream: only a prefix of length
at most one of the feed ever reaches `addSelfRepliesReducer` per reply start. -/
def selfRepliesTaken (feed : List MsgAndExtras) : List MsgAndExtras :=
  feed.take 1

/-- One emission of the merged reducer stream, after initialization. The
props reducer is not included: `props$.take(1)` fires it exactly once, as the
first emission, and its output is the initial state of the fold. Each
constructor carries the payload that the corresponding source stream supplies
to its reducer. A publish action contributes the two events `emptyPublished`
and `resetEditable` back-to-back. -/
inductive Event where
  | setRootMsg (m : MsgAndExtras)
  | setThread (t : ThreadAndExtras)
  | setSubthread (id : String) (t : ThreadAndExtras)
  | keyboardAppeared
  | keyboardDisappeared
  | updateReplyText (s : String)
  | emptyPublished
  | resetEditable
  | emptyReplyText
  | loadReplyDraft (v : Option String)
  | addSelfReplies (m : MsgAndExtras)
  deriving DecidableEq, Repr

/-- Apply the reducer corresponding to one merged-stream emission. -/
def applyEvent : Event → State → State
  | Event.setRootMsg m, prev => setRootMsgReducer m prev
  | Event.setThread t, prev => setThreadReducer t prev
  | Event.setSubthread id t, prev => setSubthreadReducer id t prev
  | Event.keyboardAppeared, prev => keyboardAppearedReducer prev
  | Event.keyboardDisappeared, prev => keyboardDisappearedReducer prev
  | Event.updateReplyText s, prev => updateReplyTextReducer s prev
  | Event.emptyPublished, prev => emptyPublishedReducer prev
  | Event.resetEditable, prev => resetEditableReducer prev
  | Event.emptyReplyText, prev => emptyReplyTextReducer prev
  | Event.loadReplyDraft v, prev => loadReplyDraftReducer v prev
  | Event.addSelfReplies m, prev => addSelfRepliesReducer m prev

/-- Whether an event is a thread-load completion (an application of
`setThreadReducer`). -/
def isSetThread : Event → Bool
  | Event.setThread _ => true
  | _ => false

/-- Fold a list of events over a starting state. -/
def runEvents (s0 : State) : List Event → State
  | [] => s0
  | e :: rest => runEvents (applyEvent e s0) rest

/-- The folded state sequence, starting state included. -/
def stateTrace (s0 : State) : List Event → List State
  | [] => [s0]
  | e :: rest => s0 :: stateTrace (applyEvent e s0) rest

/-- The `loading` flag along the folded state sequence. -/
def loadingTrace (s0 : State) (evts : List Event) : List Bool :=
  (stateTrace s0 evts).map (fun s => s.loading)

/-- How many times a Boolean sequence steps from `true` to `false`. -/
def fallCount : List Bool → Nat
  | [] => 0
  | [_] => 0
  | a :: b :: rest => (if a && !b then 1 else 0) + fallCount (b :: rest)

/-- How many times a Boolean sequence steps from `false` to `true`. -/
def riseCount : List Bool → Nat
  | [] => 0
  | [_] => 0
  | a :: b :: rest => (if !a && b then 1 else 0) + riseCount (b :: rest)

/-- `setSubthreadReducer$`: each emission of `replySeen$` is mapped to an
`ssbSource.thread$(msgId, false)` request unconditionally — the cache is
consulted only inside the reducer the completed request produces. This runs
the sequential schedule in which each request completes (yielding
`fetch msgId`) before the next reply-seen event arrives, and returns the
final state together with the list of issued thread requests. -/
def replySeenRun (fetch : String → ThreadAndExtras) : State → List String → State × List String
  | st, [] => (st, [])
  | st, id :: rest =>
    let st2 := setSubthreadReducer id (fetch id) st
    let p := replySeenRun fetch st2 rest
    (p.1, id :: p.2)

/-- A concrete post-initialization state used to instantiate theorems on
explicit inputs. -/
def sampleState : State :=
  { selfFeedId := "@alice"
    selfAvatarUrl := none
    rootMsgId := "%root"
    higherRootMsgId := none
    loading := true
    loadingReplies := true
    thread := emptyThread
    subthreads := []
    expandRootCW := false
    replyText := ""
    replyEditable := true
    getSelfRepliesReadable := none
    startedAsReply := false
    keyboardVisible := false }

/-- `sampleState` with a fully loaded, non-empty thread. -/
def fullSampleState : State :=
  { sampleState with
    thread := { full := true, messages := [⟨"%m0"⟩], errorReason := none } }

/-- `sampleState` with a non-full single-message thread. -/
def partialSampleState : State :=
  { sampleState with
    thread := { full := false, messages := [⟨"%m1"⟩], errorReason := none } }

/-- A concrete props value with an explicit root message id. -/
def sampleProps : Props :=
  { selfFeedId := "@alice"
    selfAvatarUrl := none
    rootMsgId := some "%root"
    rootMsg := none
    higherRootMsgId := none
    expandRootCW := none
    replyToMsgId := none }

/-- A concrete props value with an embedded root message and a reply target. -/
def replyProps : Props :=
  { selfFeedId := "@alice"
    selfAvatarUrl := none
    rootMsgId := none
    rootMsg := some ⟨"%key"⟩
    higherRootMsgId := none
    expandRootCW := none
    replyToMsgId := some "%target" }

/-- A concrete props value whose reply target is the empty string. -/
def emptyReplyProps : Props :=
  { selfFeedId := "@alice"
    selfAvatarUrl := none
    rootMsgId := some "%root"
    rootMsg := none
    higherRootMsgId := none
    expandRootCW := none
    replyToMsgId := some "" }

theorem truthyStr_eq_true_iff (o : Option String) :
    truthyStr o = true ↔ ∃ s, o = some s ∧ s ≠ "" := by
  cases o with
  | none => simp [truthyStr]
  | some s => simp [truthyStr]

/-- C1: a failed thread load is classified from its message text — an
`Author Blocked` match (case-insensitive) yields the blocked sentinel, else a
`Not Found` match yields the missing sentinel, else the unknown sentinel; the
sentinel is always a full, empty thread, and the applied `setThreadReducer`
installs it and clears both loading flags. -/
theorem thread_failure_classification (errMessage : String) (prev : State) :
    (classifyThreadFailure errMessage).full = true ∧
    (classifyThreadFailure errMessage).messages = [] ∧
    (classifyThreadFailure errMessage).errorReason =
      some (if testCI "Author Blocked" errMessage then ErrorReason.blocked
            else if testCI "Not Found" errMessage then ErrorReason.missing
            else ErrorReason.unknown) ∧
    (setThreadReducer (classifyThreadFailure errMessage) prev).loading = false ∧
    (setThreadReducer (classifyThreadFailure errMessage) prev).loadingReplies = false ∧
    (setThreadReducer (classifyThreadFailure errMessage) prev).thread =
      classifyThreadFailure errMessage := by
  by_cases h1 : testCI "Author Blocked" errMessage
  · simp [classifyThreadFailure, setThreadReducer, h1, blockedThread]
  · by_cases h2 : testCI "Not Found" errMessage
    · simp [classifyThreadFailure, setThreadReducer, h1, h2, missingThread]
    · simp [classifyThreadFailure, setThreadReducer, h1, h2, unknownErrorThread]

/-- C2 (amended): `setRootMsgReducer` returns the previous state whenever the
previous thread is full with a non-empty message list, and otherwise replaces
only the thread with the non-full single-message placeholder; a completed
full thread load is never clobbered. -/
theorem rootmsg_no_clobber (prev : State) (m : MsgAndExtras) :
    (prev.thread.full = true ∧ prev.thread.messages.length > 0 →
      setRootMsgReducer m prev = prev) ∧
    (¬(prev.thread.full = true ∧ prev.thread.messages.length > 0) →
      setRootMsgReducer m prev =
        { prev with
          thread := { full := false, messages := [m], errorReason := none } }) := by
  constructor
  · intro h
    simp [setRootMsgReducer, h]
  · intro h
    simp [setRootMsgReducer, h]

/-- C2 counterexample: the state is left completely unchanged on an input
whose previous thread is not full-and-non-empty, so value-level fixpoints of
the reducer are not exactly the full non-empty threads: when the previous
thread already equals the single-message placeholder, the rebuilt state
coincides with the previous one. -/
theorem rootmsg_exactly_when_counterexample :
    setRootMsgReducer ⟨"%m1"⟩ partialSampleState = partialSampleState ∧
    ¬(partialSampleState.thread.full = true ∧
      partialSampleState.thread.messages.length > 0) := by
  constructor
  · decide
  · decide

theorem rootmsg_no_clobber_witness :
    (fullSampleState.thread.full = true ∧
      fullSampleState.thread.messages.length > 0) ∧
    setRootMsgReducer ⟨"%m1"⟩ fullSampleState = fullSampleState :=
  ⟨by decide, (rootmsg_no_clobber fullSampleState ⟨"%m1"⟩).1 (by decide)⟩

/-- C4: a publish action emits exactly two reducers, in order the
clear-and-lock reducer (empty reply text, non-editable) and then the unlock
reducer (editable again, reply text untouched). -/
theorem publish_clear_then_unlock (prev : State) :
    publishReplyReducers.length = 2 ∧
    runReducers prev publishReplyReducers =
      [emptyPublishedReducer prev, resetEditableReducer (emptyPublishedReducer prev)] ∧
    (emptyPublishedReducer prev).replyEditable = false ∧
    (emptyPublishedReducer prev).replyText = "" ∧
    (resetEditableReducer (emptyPublishedReducer prev)).replyEditable = true ∧
    (∀ s : State, (resetEditableReducer s).replyText = s.replyText) :=
  ⟨rfl, rfl, rfl, rfl, rfl, fun _ => rfl⟩

/-- C6: the draft-load reducer resets `replyText` to the empty string on a
falsy stored value (`null`/absent or the stored empty string) and installs a
truthy stored string verbatim — i.e. it always installs `v.getD ""`, leaving
the rest of the state untouched. -/
theorem draft_load_truthiness (v : Option String) (prev : State) :
    loadReplyDraftReducer v prev = { prev with replyText := v.getD "" } ∧
    (loadReplyDraftReducer none prev).replyText = "" ∧
    (loadReplyDraftReducer (some "") prev).replyText = "" := by
  refine ⟨?_, rfl, rfl⟩
  cases v with
  | none => rfl
  | some s =>
    by_cases hs : s = ""
    · subst hs
      rfl
    · simp [loadReplyDraftReducer, truthyStr, hs]

/-- C7: the self-reply echo reducer appends the one new message at the end of
the thread message list and marks the thread full (everything else in the
state untouched); only a take-one prefix of the live self-replies feed is
consumed per reply start. -/
theorem self_reply_append (prev : State) (m : MsgAndExtras) (feed : List MsgAndExtras) :
    (addSelfRepliesReducer m prev).thread.messages = prev.thread.messages ++ [m] ∧
    (addSelfRepliesReducer m prev).thread.full = true ∧
    addSelfRepliesReducer m prev =
      { prev with
        thread :=
          { full := true
            messages := prev.thread.messages ++ [m]
            errorReason := none } } ∧
    (selfRepliesTaken feed).length ≤ 1 := by
  refine ⟨rfl, rfl, rfl, ?_⟩
  simp [selfRepliesTaken]

/-- C9: the initialization reducer ignores the previous state entirely — its
output is a function of the props alone (two-run noninterference). -/
theorem props_reducer_ignores_prev (p : Props) (s1 s2 : Option State) :
    propsReducer p s1 = propsReducer p s2 := rfl

/-- C10: the self-reply echo reducer rebuilds the thread from the
concatenated messages and `full := true` only, so any error classification on
the previous thread is dropped. -/
theorem self_reply_clears_error (prev : State) (m : MsgAndExtras) (r : ErrorReason)
    (_h : prev.thread.errorReason = some r) :
    (addSelfRepliesReducer m prev).thread.errorReason = none ∧
    (addSelfRepliesReducer m prev).thread.full = true ∧
    (addSelfRepliesReducer m prev).thread.messages = prev.thread.messages ++ [m] :=
  ⟨rfl, rfl, rfl⟩

theorem self_reply_clears_error_witness :
    ({ sampleState with thread := blockedThread } : State).thread.errorReason =
      some ErrorReason.blocked ∧
    (addSelfRepliesReducer ⟨"%m1"⟩
        { sampleState with thread := blockedThread }).thread.errorReason = none :=
  ⟨by decide,
    (self_reply_clears_error { sampleState with thread := blockedThread } ⟨"%m1"⟩
        ErrorReason.blocked (by decide)).1⟩

theorem lookup_append_single_of_none {l : List (String × ThreadAndExtras)}
    {id : String} (t : ThreadAndExtras) (h : l.lookup id = none) :
    (l ++ [(id, t)]).lookup id = some t := by
  induction l with
  | nil => simp [List.lookup]
  | cons hd tl ih =>
    obtain ⟨k, v⟩ := hd
    by_cases hk : id = k
    · have hb : (id == k) = true := beq_iff_eq.mpr hk
      simp [List.lookup, hb] at h
    · have hb : (id == k) = false := beq_eq_false_iff_ne.mpr hk
      simp only [List.cons_append, List.lookup, hb] at h ⊢
      exact ih h

theorem countP_key_zero_of_lookup_none {l : List (String × ThreadAndExtras)}
    {id : String} (h : l.lookup id = none) :
    l.countP (fun pr => pr.1 == id) = 0 := by
  induction l with
  | nil => rfl
  | cons hd tl ih =>
    obtain ⟨k, v⟩ := hd
    by_cases hk : id = k
    · have hb : (id == k) = true := beq_iff_eq.mpr hk
      simp [List.lookup, hb] at h
    · have hb : (id == k) = false := beq_eq_false_iff_ne.mpr hk
      have hb2 : (k == id) = false := beq_eq_false_iff_ne.mpr (Ne.symm hk)
      simp only [List.lookup, hb] at h
      rw [List.countP_cons]
      simp [ih h, hb2]

theorem replySeenRun_requests (fetch : String → ThreadAndExtras)
    (st : State) (ids : List String) :
    (replySeenRun fetch st ids).2 = ids := by
  induction ids generalizing st with
  | nil => rfl
  | cons id rest ih => simp [replySeenRun, ih]

/-- C3 (amended): once `subthreads[id]` is defined, any later sub-thread
reducer for that id returns the previous state unchanged (first-load-wins,
no overwrite), so two reply-seen events for the same id leave exactly one
entry for that id; however the thread request itself is issued for every
reply-seen event — the cache guard lives only inside the reducer. -/
theorem subthread_first_load_wins (prev : State) (id : String)
    (sub1 sub2 : ThreadAndExtras) (h : prev.subthreads.lookup id = none) :
    (∀ st : State, ∀ t : ThreadAndExtras,
        (st.subthreads.lookup id).isSome = true → setSubthreadReducer id t st = st) ∧
    setSubthreadReducer id sub2 (setSubthreadReducer id sub1 prev) =
      setSubthreadReducer id sub1 prev ∧
    (setSubthreadReducer id sub1 prev).subthreads.lookup id = some sub1 ∧
    ((setSubthreadReducer id sub2 (setSubthreadReducer id sub1 prev)).subthreads.countP
        (fun pr => pr.1 == id)) = 1 ∧
    (∀ fetch : String → ThreadAndExtras, ∀ st : State, ∀ ids : List String,
        (replySeenRun fetch st ids).2 = ids) := by
  have cached : ∀ st : State, ∀ t : ThreadAndExtras,
      (st.subthreads.lookup id).isSome = true → setSubthreadReducer id t st = st := by
    intro st t hsome
    cases hl : st.subthreads.lookup id with
    | none => rw [hl] at hsome; simp at hsome
    | some u => simp [setSubthreadReducer, hl]
  have hst1 : setSubthreadReducer id sub1 prev =
      { prev with subthreads := prev.subthreads ++ [(id, sub1)] } := by
    simp [setSubthreadReducer, h]
  have hlook : (setSubthreadReducer id sub1 prev).subthreads.lookup id = some sub1 := by
    rw [hst1]
    exact lookup_append_single_of_none sub1 h
  have hsecond : setSubthreadReducer id sub2 (setSubthreadReducer id sub1 prev) =
      setSubthreadReducer id sub1 prev :=
    cached _ sub2 (by rw [hlook]; rfl)
  refine ⟨cached, hsecond, hlook, ?_, replySeenRun_requests⟩
  rw [hsecond, hst1]
  simp [List.countP_append, countP_key_zero_of_lookup_none h, List.countP_cons]

/-- C3 counterexample: an already-cached sub-thread id is reloaded anyway.
After the first reply-seen event for an id completes, the id is cached, yet a
second reply-seen event for the same id still issues a thread request: two
events for one id produce two requests, not one. -/
theorem subthread_reload_counterexample :
    (replySeenRun (fun _ => emptyThread) sampleState ["%a", "%a"]).2 = ["%a", "%a"] ∧
    ((setSubthreadReducer "%a" emptyThread sampleState).subthreads.lookup "%a").isSome =
      true := by
  constructor
  · decide
  · decide

theorem subthread_first_load_wins_witness :
    sampleState.subthreads.lookup "%a" = none ∧
    setSubthreadReducer "%a" missingThread (setSubthreadReducer "%a" emptyThread sampleState) =
      setSubthreadReducer "%a" emptyThread sampleState ∧
    ((setSubthreadReducer "%a" missingThread
        (setSubthreadReducer "%a" emptyThread sampleState)).subthreads.countP
        (fun pr => pr.1 == "%a")) = 1 :=
  ⟨by decide,
    (subthread_first_load_wins sampleState "%a" emptyThread missingThread (by decide)).2.1,
    (subthread_first_load_wins sampleState "%a" emptyThread missingThread
        (by decide)).2.2.2.1⟩

/-- C8 (amended): the initialization reducer fires exactly once
(`props$.take(1)`), and the state it produces has `loading = true`; has
`loadingReplies` iff a root message object was supplied; seeds the empty full
thread; resolves the root id from the explicit `rootMsgId` when present and
from the embedded message key otherwise; and sets `startedAsReply` and
`keyboardVisible` (always equal) to true exactly when a truthy — i.e.
non-empty — reply target was specified. -/
theorem props_reducer_init (p : Props) (st : State)
    (h : propsReducer p none = some st) :
    st.loading = true ∧
    st.loadingReplies = p.rootMsg.isSome ∧
    st.thread = emptyThread ∧
    st.thread.messages = [] ∧
    (∀ id : String, p.rootMsgId = some id → st.rootMsgId = id) ∧
    (∀ m : MsgAndExtras, p.rootMsgId = none → p.rootMsg = some m →
      st.rootMsgId = m.key) ∧
    (st.startedAsReply = true ↔ ∃ s, p.replyToMsgId = some s ∧ s ≠ "") ∧
    (st.keyboardVisible = true ↔ ∃ s, p.replyToMsgId = some s ∧ s ≠ "") ∧
    st.startedAsReply = st.keyboardVisible ∧
    (∀ ps : List Props, ps ≠ [] → propsFirings ps = 1) := by
  have hfirings : ∀ ps : List Props, ps ≠ [] → propsFirings ps = 1 := by
    intro ps hps
    cases ps with
    | nil => exact absurd rfl hps
    | cons a l => simp [propsFirings]
  rcases h1 : p.rootMsgId with _ | rid <;> rcases h2 : p.rootMsg with _ | rm
  · simp [propsReducer, h1, h2] at h
  · simp [propsReducer, h1, h2] at h
    subst h
    refine ⟨rfl, by simp [mkInitState, h2], rfl, rfl, ?_, ?_, ?_, ?_, rfl, hfirings⟩
    · intro id hid
      exact Option.noConfusion hid
    · intro m _ hm
      exact congrArg MsgAndExtras.key (Option.some.inj hm)
    · exact truthyStr_eq_true_iff p.replyToMsgId
    · exact truthyStr_eq_true_iff p.replyToMsgId
  · simp [propsReducer, h1, h2] at h
    subst h
    refine ⟨rfl, by simp [mkInitState, h2], rfl, rfl, ?_, ?_, ?_, ?_, rfl, hfirings⟩
    · intro id hid
      exact Option.some.inj hid
    · intro m hnone _
      exact Option.noConfusion hnone
    · exact truthyStr_eq_true_iff p.replyToMsgId
    · exact truthyStr_eq_true_iff p.replyToMsgId
  · simp [propsReducer, h1, h2] at h
    subst h
    refine ⟨rfl, by simp [mkInitState, h2], rfl, rfl, ?_, ?_, ?_, ?_, rfl, hfirings⟩
    · intro id hid
      exact Option.some.inj hid
    · intro m hnone _
      exact Option.noConfusion hnone
    · exact truthyStr_eq_true_iff p.replyToMsgId
    · exact truthyStr_eq_true_iff p.replyToMsgId

/-- C8 counterexample: a reply target that is the empty string is specified
(`isSome`) yet `startedAsReply` and `keyboardVisible` come out false, because
`props.replyToMsgId ? true : false` uses JS truthiness. -/
theorem props_reply_target_counterexample :
    emptyReplyProps.replyToMsgId.isSome = true ∧
    Option.map (fun st : State => st.startedAsReply) (propsReducer emptyReplyProps none) =
      some false ∧
    Option.map (fun st : State => st.keyboardVisible) (propsReducer emptyReplyProps none) =
      some false := by
  refine ⟨by decide, by decide, by decide⟩

theorem props_reducer_init_witness :
    propsReducer replyProps none = some (mkInitState replyProps "%key") ∧
    (mkInitState replyProps "%key").loading = true ∧
    (mkInitState replyProps "%key").rootMsgId = "%key" ∧
    (mkInitState replyProps "%key").startedAsReply = true ∧
    propsFirings [replyProps] = 1 := by
  have h := props_reducer_init replyProps (mkInitState replyProps "%key") rfl
  refine ⟨rfl, h.1, ?_, ?_, ?_⟩
  · exact h.2.2.2.2.2.1 ⟨"%key"⟩ rfl rfl
  · exact (h.2.2.2.2.2.2.1).mpr ⟨"%target", rfl, by decide⟩
  · exact h.2.2.2.2.2.2.2.2.2 [replyProps] (by simp)

theorem loadingTrace_nil (s0 : State) : loadingTrace s0 [] = [s0.loading] := rfl

theorem loadingTrace_cons (s0 : State) (e : Event) (evts : List Event) :
    loadingTrace s0 (e :: evts) = s0.loading :: loadingTrace (applyEvent e s0) evts := rfl

theorem applyEvent_loading (e : Event) (s : State) :
    (applyEvent e s).loading = (s.loading && !isSetThread e) := by
  cases e <;>
    simp only [applyEvent, isSetThread, Bool.not_false, Bool.not_true,
      Bool.and_true, Bool.and_false] <;>
    first
      | rfl
      | (unfold setRootMsgReducer; split <;> rfl)
      | (unfold setSubthreadReducer; split <;> rfl)
      | (unfold loadReplyDraftReducer; split <;> rfl)

theorem runEvents_loading (evts : List Event) (s0 : State) :
    (runEvents s0 evts).loading = (s0.loading && !(evts.any isSetThread)) := by
  induction evts generalizing s0 with
  | nil => simp [runEvents]
  | cons e rest ih =>
    simp [runEvents, ih, applyEvent_loading, List.any_cons, Bool.not_or, Bool.and_assoc]

theorem rise_step (a z : Bool) : (if !a && (a && z) then 1 else 0) = 0 := by
  cases a <;> cases z <;> rfl

theorem fall_step (a x y : Bool) :
    ((if a && !(a && !x) then 1 else 0) + if (a && !x) && y then 1 else 0) =
      if a && (x || y) then 1 else 0 := by
  cases a <;> cases x <;> cases y <;> rfl

theorem fall_step_last (a x : Bool) :
    ((if a && !(a && !x) then 1 else 0) + 0) = if a && x then 1 else 0 := by
  cases a <;> cases x <;> rfl

theorem riseCount_loadingTrace (evts : List Event) (s0 : State) :
    riseCount (loadingTrace s0 evts) = 0 := by
  induction evts generalizing s0 with
  | nil => rfl
  | cons e rest ih =>
    cases rest with
    | nil =>
      rw [loadingTrace_cons, loadingTrace_nil]
      simp only [riseCount]
      rw [applyEvent_loading, rise_step]
    | cons e2 rest2 =>
      rw [loadingTrace_cons, loadingTrace_cons]
      simp only [riseCount]
      rw [← loadingTrace_cons, ih]
      rw [applyEvent_loading, rise_step]

theorem fallCount_loadingTrace (evts : List Event) (s0 : State) :
    fallCount (loadingTrace s0 evts) =
      if s0.loading && evts.any isSetThread then 1 else 0 := by
  induction evts generalizing s0 with
  | nil =>
    rw [loadingTrace_nil]
    simp [fallCount]
  | cons e rest ih =>
    cases rest with
    | nil =>
      rw [loadingTrace_cons, loadingTrace_nil]
      simp only [fallCount]
      rw [applyEvent_loading]
      simp only [List.any_cons, List.any_nil, Bool.or_false]
      exact fall_step_last s0.loading (isSetThread e)
    | cons e2 rest2 =>
      rw [loadingTrace_cons, loadingTrace_cons]
      simp only [fallCount]
      rw [← loadingTrace_cons, ih]
      rw [applyEvent_loading]
      simp only [List.any_cons]
      exact fall_step s0.loading (isSetThread e) ((e2 :: rest2).any isSetThread)

/-- C5: starting from any state produced by the initialization reducer and
folding any sequence of post-initialization reducer emissions, the `loading`
flag never steps from false back to true, it steps from true to false exactly
once when the event sequence contains a thread-load completion (and never
otherwise), and after any prefix of the events `loading` is false exactly
when that prefix already contains a thread-load completion — so it cannot
fall before the first application of `setThreadReducer`. -/
theorem loading_falls_once (p : Props) (s0 : State) (evts : List Event)
    (h : propsReducer p none = some s0) :
    riseCount (loadingTrace s0 evts) = 0 ∧
    fallCount (loadingTrace s0 evts) = (if evts.any isSetThread then 1 else 0) ∧
    (∀ i : Nat,
      (runEvents s0 (evts.take i)).loading = !((evts.take i).any isSetThread)) := by
  have hload : s0.loading = true := by
    rcases h1 : p.rootMsgId with _ | rid <;> rcases h2 : p.rootMsg with _ | rm <;>
      simp [propsReducer, h1, h2] at h
    all_goals (subst h; rfl)
  refine ⟨riseCount_loadingTrace evts s0, ?_, ?_⟩
  · rw [fallCount_loadingTrace, hload]
    simp
  · intro i
    rw [runEvents_loading, hload]
    simp

theorem loading_falls_once_witness :
    riseCount (loadingTrace (mkInitState sampleProps "%root")
        [Event.setThread emptyThread, Event.keyboardAppeared]) = 0 ∧
    fallCount (loadingTrace (mkInitState sampleProps "%root")
        [Event.setThread emptyThread, Event.keyboardAppeared]) = 1 ∧
    (runEvents (mkInitState sampleProps "%root")
        ([Event.setThread emptyThread, Event.keyboardAppeared].take 1)).loading = false := by
  obtain ⟨h1, h2, h3⟩ := loading_falls_once sampleProps (mkInitState sampleProps "%root")
    [Event.setThread emptyThread, Event.keyboardAppeared] rfl
  refine ⟨h1, ?_, ?_⟩
  · rw [h2]
    decide
  · have h4 := h3 1
    rw [h4]
    decide

end ThreadModel
